import Mathlib

/-!
Verification of the response-envelope and streaming-decode layer of the
midas-rs client (src/response.rs, src/trading.rs, src/historical.rs).

The HTTP transport itself is abstracted away: a fully buffered response
body is modelled as either unparseable text or a JSON value, and a chunked
response body is modelled as a list of stream items, each one either the
bytes of the chunk or a transport error.  All decoding logic is translated
from the Rust source.
-/

/-- JSON values, the image of serde_json parsing.  Numbers are restricted
to integers because every numeric field of the envelope types is an
integer type in the source. -/
inductive Json : Type
  | null : Json
  | bool (b : Bool) : Json
  | num (n : Int) : Json
  | str (s : String) : Json
  | arr (elems : List Json) : Json
  | obj (fields : List (String × Json)) : Json

/-- Envelope type from src/response.rs: struct ApiResponse with fields
status, message, code, data.  The Rust field code has type u16; it is
modelled as a Nat, with the bound 65536 carried as a hypothesis where it
matters. -/
structure ApiResponse (T : Type) where
  status : String
  message : String
  code : Nat
  data : T
deriving DecidableEq, Repr

/-- Fallback envelope shape from src/response.rs: struct RawApiResponse
with fields status, message, code and no data. -/
structure RawApiResponse where
  status : String
  message : String
  code : Nat
deriving DecidableEq, Repr

/-- Capability from src/response.rs: trait ApiDefault with a single
method default_value. -/
class ApiDefault (T : Type) where
  default_value : T

/-- Source instance: impl ApiDefault for i32 gives 0. -/
instance : ApiDefault Int := ⟨0⟩

/-- Source instance: impl ApiDefault for u32 gives 0. -/
instance : ApiDefault Nat := ⟨0⟩

/-- Source instance: impl ApiDefault for String gives the empty string. -/
instance : ApiDefault String := ⟨""⟩

/-- Source instance: impl ApiDefault for Vec T gives the empty vector. -/
instance (T : Type) : ApiDefault (List T) := ⟨[]⟩

/-- Source instance: impl ApiDefault for Option T gives None. -/
instance (T : Type) : ApiDefault (Option T) := ⟨none⟩

/-- Constructor ApiResponse::new from src/response.rs.  The StatusCode
argument is already carried as its u16 value. -/
def ApiResponse.new (T : Type) (status message : String) (code : Nat) (data : T) :
    ApiResponse T :=
  ⟨status, message, code, data⟩

/-- Constructor ApiResponse::with_default from src/response.rs: the data
field is filled with the default value of the payload type. -/
def ApiResponse.with_default (T : Type) [ApiDefault T] (status message : String)
    (code : Nat) : ApiResponse T :=
  ⟨status, message, code, ApiDefault.default_value⟩

/-- Conversion impl Into ApiResponse for RawApiResponse from
src/response.rs: forwards to with_default. -/
def RawApiResponse.into (T : Type) [ApiDefault T] (raw : RawApiResponse) :
    ApiResponse T :=
  ApiResponse.with_default T raw.status raw.message raw.code

/-- Field access of serde derived struct deserialization: a field named
name must occur exactly once among the object entries (serde rejects a
duplicated known field and a missing field; unknown fields are ignored). -/
def getField (fields : List (String × Json)) (name : String) : Option Json :=
  match fields.filter (fun p => decide (p.1 = name)) with
  | [p] => some p.2
  | _ => none

/-- Serde deserialization of String: accepts exactly a JSON string. -/
def asString : Json → Option String
  | .str s => some s
  | _ => none

/-- Serde deserialization of u16: a nonnegative integer below 65536;
negative numbers and any other JSON shape are rejected. -/
def asU16 : Json → Option Nat
  | .num (.ofNat n) => if n < 65536 then some n else none
  | _ => none

/-- Serde deserialization of u32: a nonnegative integer below 2 to the
32; negative numbers and any other JSON shape are rejected. -/
def decodeU32 : Json → Option Nat
  | .num (.ofNat n) => if n < 4294967296 then some n else none
  | _ => none

/-- Serde deserialization of i32: an integer in the i32 range. -/
def decodeI32 : Json → Option Int
  | .num n => if -2147483648 ≤ n ∧ n < 2147483648 then some n else none
  | _ => none

/-- Serde deserialization of String payloads, same as asString. -/
def decodeString : Json → Option String := asString

/-- Decode of one named field of a struct: look the field up, then decode
its value. -/
def fieldDecode (A : Type) (dec : Json → Option A) (fields : List (String × Json))
    (name : String) : Option A :=
  (getField fields name).bind dec

/-- Strict structural decode of an ApiResponse from a JSON value, as the
serde derive produces for struct ApiResponse: the value must be an object
with the four fields status, message, code, data, each present exactly
once, decoding at their declared types; extra fields are ignored.  The
payload decoder decodeT stands for the DeserializeOwned bound on T. -/
def decodeApiResponse (T : Type) (decodeT : Json → Option T) (j : Json) :
    Option (ApiResponse T) :=
  match j with
  | .obj fields =>
    (fieldDecode String asString fields "status").bind (fun s =>
      (fieldDecode String asString fields "message").bind (fun m =>
        (fieldDecode Nat asU16 fields "code").bind (fun c =>
          (fieldDecode T decodeT fields "data").bind (fun d =>
            some ⟨s, m, c, d⟩))))
  | _ => none

/-- Structural decode of a RawApiResponse from a JSON value, as the serde
derive produces for struct RawApiResponse: an object with the three fields
status, message, code; extra fields, in particular a data field of any
shape, are ignored. -/
def decodeRawApiResponse (j : Json) : Option RawApiResponse :=
  match j with
  | .obj fields =>
    (fieldDecode String asString fields "status").bind (fun s =>
      (fieldDecode String asString fields "message").bind (fun m =>
        (fieldDecode Nat asU16 fields "code").bind (fun c =>
          some ⟨s, m, c⟩)))
  | _ => none

/-- Response body text after response.text(): either text that is not
valid JSON at all, or the JSON value it parses to. -/
inductive Body : Type
  | malformed : Body
  | json (j : Json) : Body

/-- Outcome of serde_json::from_str for ApiResponse on a body. -/
def bodyDecodeStrict (T : Type) (decodeT : Json → Option T) : Body → Option (ApiResponse T)
  | .malformed => none
  | .json j => decodeApiResponse T decodeT j

/-- Outcome of serde_json::from_str for RawApiResponse on a body. -/
def bodyDecodeRaw : Body → Option RawApiResponse
  | .malformed => none
  | .json j => decodeRawApiResponse j

/-- Abstract origin of a std io error inside this crate, used to tell the
three io failure sites of get_records_to_file apart. -/
inductive IoErrorKind : Type
  | bufferError : IoErrorKind
  | fileCreateError : IoErrorKind
  | fileWriteError : IoErrorKind
deriving DecidableEq, Repr

/-- Error enum from src/error.rs.  The payloads of the library error
variants are opaque to this crate and are dropped, except that io errors
keep the abstract origin of the error. -/
inductive Error : Type
  | sqlError (msg : String) : Error
  | jsonError : Error
  | parseError : Error
  | ioError (kind : IoErrorKind) : Error
  | requestError : Error
deriving DecidableEq, Repr

/-- Dual-path decode ApiResponse::from_response from src/response.rs,
applied to an already read body: first the strict decode into ApiResponse,
on failure the fallback decode into RawApiResponse converted via
with_default, and if that fails too the serde error is propagated as a
JsonError. -/
def ApiResponse.from_response (T : Type) [ApiDefault T] (decodeT : Json → Option T)
    (body : Body) : Except Error (ApiResponse T) :=
  match bodyDecodeStrict T decodeT body with
  | some r => .ok r
  | none =>
    match bodyDecodeRaw body with
    | some raw => .ok (raw.into T)
    | none => .error .jsonError

/-- Serde serialization of an ApiResponse, as the derive produces: an
object listing the fields in declaration order.  The payload encoder
encodeT stands for the Serialize bound on T. -/
def encodeApiResponse (T : Type) (encodeT : T → Json) (r : ApiResponse T) : Json :=
  .obj [("status", .str r.status), ("message", .str r.message),
        ("code", .num (Int.ofNat r.code)), ("data", encodeT r.data)]

/-- Item of a chunked response body stream: either the payload of one
chunk or a transport error raised while receiving it (reqwest error,
dropped). -/
inductive StreamItem (A : Type) : Type
  | ok (payload : A) : StreamItem A
  | err : StreamItem A
deriving DecidableEq, Repr

/-- Decode of one create_backtest chunk (src/trading.rs lines 120 to 121):
the chunk bytes are read as text and parsed with serde_json as an
ApiResponse of String.  Returns none for a transport-error item. -/
def chunkFrag : StreamItem Body → Option (ApiResponse String)
  | .ok b => bodyDecodeStrict String decodeString b
  | .err => none

/-- Envelope synthesized by create_backtest when the stream ends with no
successful fragment recorded (src/trading.rs lines 149 to 154):
ApiResponse::new with status failed, the literal message of the source,
StatusCode::NOT_FOUND as 404, and an empty string payload. -/
def noValidResponse : ApiResponse String :=
  ApiResponse.new String "failed" "No valid response recieved." 404 ""

/-- One update of the last_response vector in the create_backtest loop
(src/trading.rs lines 127 to 131): push onto the empty vector, otherwise
overwrite index 0. -/
def pushLastResponse (last : List (ApiResponse String)) (r : ApiResponse String) :
    List (ApiResponse String) :=
  if last.isEmpty then last ++ [r] else last.set 0 r

/-- Streaming loop of Trading::create_backtest (src/trading.rs lines 113
to 155) over the remaining chunk items, carrying the last_response vector.
Besides the result it returns the list of chunk items left unconsumed when
the loop returned early (empty when the stream was read to its end).
A transport error item returns the request error; a chunk that fails the
envelope parse returns the serde error; a fragment whose status is not
success is returned at once as the Ok result; a success fragment replaces
the recorded last response.  When the chunks are exhausted the recorded
response at index 0 is returned if the vector is nonempty, otherwise the
synthesized noValidResponse. -/
def backtestLoop : List (StreamItem Body) → List (ApiResponse String) →
    Except Error (ApiResponse String) × List (StreamItem Body)
  | [], last =>
    (match last with
     | r :: _ => .ok r
     | [] => .ok noValidResponse, [])
  | c :: rest, last =>
    match c with
    | .err => (.error .requestError, rest)
    | .ok b =>
      match bodyDecodeStrict String decodeString b with
      | none => (.error .jsonError, rest)
      | some r =>
        if r.status ≠ "success" then (.ok r, rest)
        else backtestLoop rest (pushLastResponse last r)

/-- Result of Trading::create_backtest on a chunk stream, starting from
the empty last_response vector. -/
def createBacktestStream (chunks : List (StreamItem Body)) :
    Except Error (ApiResponse String) :=
  (backtestLoop chunks []).1

/-- Chunk items of the stream left unconsumed by the create_backtest
loop. -/
def createBacktestUnconsumed (chunks : List (StreamItem Body)) :
    List (StreamItem Body) :=
  (backtestLoop chunks []).2

/-- Successive values of the last_response vector at each entry of the
create_backtest loop, ending at the entry where the loop returned. -/
def backtestStates : List (StreamItem Body) → List (ApiResponse String) →
    List (List (ApiResponse String))
  | [], last => [last]
  | c :: rest, last =>
    last ::
      (match c with
       | .err => []
       | .ok b =>
         match bodyDecodeStrict String decodeString b with
         | none => []
         | some r =>
           if r.status ≠ "success" then []
           else backtestStates rest (pushLastResponse last r))

/-- Accumulation loop of Historical::get_records (src/historical.rs lines
180 to 196): chunk bytes are appended to the data buffer; a transport
error item is returned at once as a request error; when the stream ends
the buffer is wrapped in a fresh success envelope with empty message,
StatusCode::OK as 200, and Some of the buffer as payload.  Bytes are
modelled as lists of Nat. -/
def getRecordsLoop : List (StreamItem (List Nat)) → List Nat →
    Except Error (ApiResponse (Option (List Nat)))
  | [], data => .ok (ApiResponse.new (Option (List Nat)) "success" "" 200 (some data))
  | c :: rest, data =>
    match c with
    | .ok bytes => getRecordsLoop rest (data ++ bytes)
    | .err => .error .requestError

/-- Result of Historical::get_records on a chunk stream, starting from the
empty buffer. -/
def get_records (chunks : List (StreamItem (List Nat))) :
    Except Error (ApiResponse (Option (List Nat))) :=
  getRecordsLoop chunks []

/-- Historical::get_records_to_file (src/historical.rs lines 199 to 215):
calls get_records, then creates the target file, then unwraps the data
field (raising the io error with message Error with returned buffer when
it is none), then writes the buffer.  File system outcomes are abstracted
as two booleans telling whether creation and writing succeed. -/
def get_records_to_file (chunks : List (StreamItem (List Nat)))
    (createOk writeOk : Bool) : Except Error Unit :=
  match get_records chunks with
  | .error e => .error e
  | .ok resp =>
    if createOk then
      match resp.data with
      | none => .error (.ioError .bufferError)
      | some _ => if writeOk then .ok () else .error (.ioError .fileWriteError)
    else .error (.ioError .fileCreateError)

/-- Decode step of Historical::create_symbol (src/historical.rs line 70):
a single strict serde_json::from_str into ApiResponse of u32, with no
RawApiResponse fallback; a failed parse propagates the serde error. -/
def createSymbolDecode (body : Body) : Except Error (ApiResponse Nat) :=
  match bodyDecodeStrict Nat decodeU32 body with
  | some r => .ok r
  | none => .error .jsonError

/-- Decode step of Trading::create_live (src/trading.rs lines 44 to 50):
both the non-OK branch and the OK branch decode the body through
ApiResponse::from_response at payload type i32. -/
def createLiveDecode (body : Body) : Except Error (ApiResponse Int) :=
  ApiResponse.from_response Int decodeI32 body

/-- Body carrying only the raw envelope shape: an object with status
failed, message m, code 404 and no data key. -/
def rawOnlyBody : Body :=
  .json (.obj [("status", .str "failed"), ("message", .str "m"), ("code", .num 404)])

/-- Body that is valid JSON but matches neither envelope shape: an object
with a message field but no status field. -/
def noStatusBody : Body :=
  .json (.obj [("message", .str "m")])

/-- C1: for every payload type with an ApiDefault instance, a body that
fails the strict ApiResponse decode but decodes as a RawApiResponse is
turned by from_response into Ok of an envelope keeping the raw status,
message and code, with the payload default as data. -/
theorem from_response_raw_fallback (T : Type) [ApiDefault T]
    (decodeT : Json → Option T) (body : Body) (raw : RawApiResponse)
    (hstrict : bodyDecodeStrict T decodeT body = none)
    (hraw : bodyDecodeRaw body = some raw) :
    ApiResponse.from_response T decodeT body =
      .ok ⟨raw.status, raw.message, raw.code, ApiDefault.default_value⟩ := by
  unfold ApiResponse.from_response
  rw [hstrict, hraw]
  rfl

/-- Witness for C1 at payload type u32 on the raw-only body: the result
keeps status failed, message m, code 404 and has the zero payload. -/
theorem from_response_raw_fallback_witness :
    ApiResponse.from_response Nat decodeU32 rawOnlyBody =
      .ok ⟨"failed", "m", 404, 0⟩ :=
  from_response_raw_fallback Nat decodeU32 rawOnlyBody ⟨"failed", "m", 404⟩
    (by decide) (by decide)

/-- C2: a body that decodes neither as an ApiResponse nor as a
RawApiResponse makes from_response propagate the serde error; it is never
mapped to a default-valued envelope. -/
theorem from_response_unrecognized_error (T : Type) [ApiDefault T]
    (decodeT : Json → Option T) (body : Body)
    (hstrict : bodyDecodeStrict T decodeT body = none)
    (hraw : bodyDecodeRaw body = none) :
    ApiResponse.from_response T decodeT body = .error .jsonError := by
  unfold ApiResponse.from_response
  rw [hstrict, hraw]

/-- Witness for C2 at payload type u32 on the body whose JSON object has
no status field. -/
theorem from_response_unrecognized_error_witness :
    ApiResponse.from_response Nat decodeU32 noStatusBody = .error .jsonError :=
  from_response_unrecognized_error Nat decodeU32 noStatusBody (by decide) (by decide)

/-- Field lookup on a serialized envelope: the status entry. -/
lemma getField_encoded_status (a b : String) (c : Int) (d : Json) :
    getField [("status", .str a), ("message", .str b), ("code", .num c),
      ("data", d)] "status" = some (.str a) := rfl

/-- Field lookup on a serialized envelope: the message entry. -/
lemma getField_encoded_message (a b : String) (c : Int) (d : Json) :
    getField [("status", .str a), ("message", .str b), ("code", .num c),
      ("data", d)] "message" = some (.str b) := rfl

/-- Field lookup on a serialized envelope: the code entry. -/
lemma getField_encoded_code (a b : String) (c : Int) (d : Json) :
    getField [("status", .str a), ("message", .str b), ("code", .num c),
      ("data", d)] "code" = some (.num c) := rfl

/-- Field lookup on a serialized envelope: the data entry. -/
lemma getField_encoded_data (a b : String) (c : Int) (d : Json) :
    getField [("status", .str a), ("message", .str b), ("code", .num c),
      ("data", d)] "data" = some d := rfl

/-- C7: for every payload codec that round-trips and every envelope whose
code is in the u16 range, serializing the envelope and strictly decoding
the result reproduces the envelope exactly, and from_response on such a
body returns exactly that envelope through the strict path. -/
theorem encode_decode_roundtrip (T : Type) [ApiDefault T] (encodeT : T → Json)
    (decodeT : Json → Option T) (r : ApiResponse T)
    (hcodec : ∀ d, decodeT (encodeT d) = some d)
    (hcode : r.code < 65536) :
    decodeApiResponse T decodeT (encodeApiResponse T encodeT r) = some r ∧
    ApiResponse.from_response T decodeT (.json (encodeApiResponse T encodeT r)) =
      .ok r := by
  have hdec : decodeApiResponse T decodeT (encodeApiResponse T encodeT r) = some r := by
    simp only [encodeApiResponse]
    simp only [decodeApiResponse, fieldDecode, getField_encoded_status,
      getField_encoded_message, getField_encoded_code, getField_encoded_data,
      Option.some_bind, asString, asU16, hcodec]
    rw [if_pos hcode]
    simp only [Option.some_bind]
  refine ⟨hdec, ?_⟩
  unfold ApiResponse.from_response
  have hstrict : bodyDecodeStrict T decodeT (.json (encodeApiResponse T encodeT r)) =
      some r := by
    simpa [bodyDecodeStrict] using hdec
  rw [hstrict]

/-- Witness for C7 at payload type String with the string codec on a
concrete envelope. -/
theorem encode_decode_roundtrip_witness :
    decodeApiResponse String decodeString
        (encodeApiResponse String Json.str ⟨"success", "ok", 200, "x"⟩) =
      some ⟨"success", "ok", 200, "x"⟩ ∧
    ApiResponse.from_response String decodeString
        (.json (encodeApiResponse String Json.str ⟨"success", "ok", 200, "x"⟩)) =
      .ok ⟨"success", "ok", 200, "x"⟩ :=
  encode_decode_roundtrip String Json.str decodeString ⟨"success", "ok", 200, "x"⟩
    (fun _ => rfl) (by decide)

/-- C4 counterexample: the instrument CRUD decode path has no
RawApiResponse fallback.  On the body matching only the raw envelope
shape, create_symbol propagates the serde error even though the raw
decode succeeds, contradicting the claimed dual-path contract for the
instrument operations. -/
theorem create_symbol_no_fallback :
    createSymbolDecode rawOnlyBody = .error .jsonError ∧
    bodyDecodeRaw rawOnlyBody = some ⟨"failed", "m", 404⟩ :=
  ⟨rfl, by decide⟩

/-- C4 amended: the live and backtest CRUD calls decode through the dual
path, so a body failing the strict decode but matching the raw envelope
yields Ok with the default payload, while the instrument CRUD calls
decode strictly only and propagate a serde error on the same body. -/
theorem dual_path_trading_strict_instruments (body : Body) (raw : RawApiResponse)
    (hstrictI : bodyDecodeStrict Int decodeI32 body = none)
    (hstrictN : bodyDecodeStrict Nat decodeU32 body = none)
    (hraw : bodyDecodeRaw body = some raw) :
    createLiveDecode body = .ok ⟨raw.status, raw.message, raw.code, 0⟩ ∧
    createSymbolDecode body = .error .jsonError := by
  constructor
  · unfold createLiveDecode ApiResponse.from_response
    rw [hstrictI, hraw]
    rfl
  · unfold createSymbolDecode
    rw [hstrictN]

/-- Witness for the amended C4 on the raw-only body. -/
theorem dual_path_trading_strict_instruments_witness :
    createLiveDecode rawOnlyBody = .ok ⟨"failed", "m", 404, 0⟩ ∧
    createSymbolDecode rawOnlyBody = .error .jsonError :=
  dual_path_trading_strict_instruments rawOnlyBody ⟨"failed", "m", 404⟩
    (by decide) (by decide) (by decide)

/-- Chunk body carrying a success envelope with payload 1. -/
def successBody1 : Body :=
  .json (.obj [("status", .str "success"), ("message", .str "a"),
    ("code", .num 200), ("data", .str "1")])

/-- Chunk body carrying a success envelope with payload 2. -/
def successBody2 : Body :=
  .json (.obj [("status", .str "success"), ("message", .str "b"),
    ("code", .num 200), ("data", .str "2")])

/-- Chunk body carrying a failure envelope, as sent by the backend for a
duplicate-record rejection. -/
def failedBody : Body :=
  .json (.obj [("status", .str "failed"), ("message", .str "dup"),
    ("code", .num 409), ("data", .str "")])

/-- C3 counterexample: on the empty chunk stream create_backtest returns
the synthesized envelope, whose message is the source literal
No valid response recieved. and not the message the claim states. -/
theorem create_backtest_empty_message :
    createBacktestStream [] = .ok noValidResponse ∧
    noValidResponse.message ≠ "no valid response received" :=
  ⟨rfl, by decide⟩

/-- C3 amended: stream accumulation of zero chunks returns the
synthesized failure envelope with status failed, the message
No valid response recieved., code 404 and empty payload, never an empty
success. -/
theorem create_backtest_empty_stream :
    createBacktestStream [] =
      .ok ⟨"failed", "No valid response recieved.", 404, ""⟩ :=
  rfl

/-- C5: during create_backtest stream accumulation, a decoded fragment
whose status is not success is returned immediately as the Ok result and
the remaining chunks are left unconsumed: on a stream of a success chunk,
a non-success chunk and a trailing chunk, the result is the non-success
fragment and the trailing chunk is untouched. -/
theorem create_backtest_fail_fast (c1 c2 c3 : StreamItem Body)
    (r1 r2 : ApiResponse String)
    (h1 : chunkFrag c1 = some r1) (hs1 : r1.status = "success")
    (h2 : chunkFrag c2 = some r2) (hs2 : r2.status ≠ "success") :
    backtestLoop [c1, c2, c3] [] = (.ok r2, [c3]) := by
  cases c1 with
  | err => simp [chunkFrag] at h1
  | ok b1 =>
    cases c2 with
    | err => simp [chunkFrag] at h2
    | ok b2 =>
      have h1b : bodyDecodeStrict String decodeString b1 = some r1 := h1
      have h2b : bodyDecodeStrict String decodeString b2 = some r2 := h2
      simp [backtestLoop, h1b, h2b, hs1, hs2, pushLastResponse]

/-- Witness for C5 on the concrete stream success, failed, success: the
failed fragment is the result and the trailing success chunk stays
unconsumed. -/
theorem create_backtest_fail_fast_witness :
    backtestLoop [.ok successBody1, .ok failedBody, .ok successBody2] [] =
      (.ok ⟨"failed", "dup", 409, ""⟩, [.ok successBody2]) :=
  create_backtest_fail_fast (.ok successBody1) (.ok failedBody) (.ok successBody2)
    ⟨"success", "a", 200, "1"⟩ ⟨"failed", "dup", 409, ""⟩
    (by decide) rfl (by decide) (by decide)

/-- Helper: prepending an element shifts the default of a last-element
lookup. -/
lemma getLast?_getD_cons (A : Type) (l : List A) (a x : A) :
    (a :: l).getLast?.getD x = l.getLast?.getD a := by
  induction l generalizing a x with
  | nil => rfl
  | cons b t ih =>
    rw [List.getLast?_cons_cons]
    rw [ih b x, ih b a]

/-- Helper: running the create_backtest loop over chunks that all decode
to success fragments ends the stream, returning the last fragment, or the
recorded head, or the synthesized failure when there is neither. -/
lemma backtestLoop_all_success (rs : List (ApiResponse String)) :
    ∀ (chunks : List (StreamItem Body)) (last : List (ApiResponse String)),
      last.length ≤ 1 →
      chunks.map chunkFrag = rs.map some →
      (∀ r ∈ rs, r.status = "success") →
      backtestLoop chunks last =
        (.ok (rs.getLast?.getD (last.headD noValidResponse)), []) := by
  induction rs with
  | nil =>
    intro chunks last _ hmap _
    have hc : chunks = [] := by
      cases chunks with
      | nil => rfl
      | cons c cs => simp at hmap
    subst hc
    cases last with
    | nil => rfl
    | cons r t => rfl
  | cons r rs ih =>
    intro chunks last hlen hmap hsucc
    cases chunks with
    | nil => simp at hmap
    | cons c cs =>
      simp only [List.map_cons] at hmap
      have hc : chunkFrag c = some r := (List.cons.injEq _ _ _ _ ▸ hmap).1
      have hcs : cs.map chunkFrag = rs.map some := (List.cons.injEq _ _ _ _ ▸ hmap).2
      cases c with
      | err => simp [chunkFrag] at hc
      | ok b =>
        have hb : bodyDecodeStrict String decodeString b = some r := hc
        have hr : r.status = "success" := hsucc r (by simp)
        have hlen2 : (pushLastResponse last r).length ≤ 1 := by
          cases last with
          | nil => simp [pushLastResponse]
          | cons x t => simpa [pushLastResponse] using hlen
        have hhead : (pushLastResponse last r).headD noValidResponse = r := by
          cases last with
          | nil => rfl
          | cons x t => rfl
        have htail := ih cs (pushLastResponse last r) hlen2 hcs
          (fun q hq => hsucc q (List.mem_cons_of_mem r hq))
        simp only [backtestLoop, hb, hr]
        simp only [ne_eq, not_true_eq_false, if_false, ite_false]
        rw [htail, hhead]
        rw [getLast?_getD_cons]

/-- C6: when every chunk of a nonempty stream decodes to a fragment with
status success, create_backtest returns the last fragment in arrival
order. -/
theorem create_backtest_last_success (rs : List (ApiResponse String))
    (chunks : List (StreamItem Body)) (hne : rs ≠ [])
    (hmap : chunks.map chunkFrag = rs.map some)
    (hsucc : ∀ r ∈ rs, r.status = "success") :
    createBacktestStream chunks = .ok (rs.getLast hne) := by
  have h := backtestLoop_all_success rs chunks [] (by simp) hmap hsucc
  unfold createBacktestStream
  rw [h]
  simp [List.getLast?_eq_getLast rs hne]

/-- Witness for C6 on two concrete success chunks: the second fragment is
returned. -/
theorem create_backtest_last_success_witness :
    createBacktestStream [.ok successBody1, .ok successBody2] =
      .ok ⟨"success", "b", 200, "2"⟩ :=
  create_backtest_last_success
    [⟨"success", "a", 200, "1"⟩, ⟨"success", "b", 200, "2"⟩]
    [.ok successBody1, .ok successBody2]
    (by decide) (by decide) (by decide)

/-- Helper: one update of the last_response vector keeps its length at
most one. -/
lemma pushLastResponse_length (last : List (ApiResponse String))
    (r : ApiResponse String) (h : last.length ≤ 1) :
    (pushLastResponse last r).length ≤ 1 := by
  cases last with
  | nil => simp [pushLastResponse]
  | cons x t => simpa [pushLastResponse] using h

/-- Helper: every state of the last_response vector reached from a state
of length at most one also has length at most one. -/
lemma backtestStates_bounded (chunks : List (StreamItem Body)) :
    ∀ (last : List (ApiResponse String)), last.length ≤ 1 →
      ∀ s ∈ backtestStates chunks last, s.length ≤ 1 := by
  induction chunks with
  | nil =>
    intro last hlen s hs
    simp only [backtestStates, List.mem_singleton] at hs
    exact hs ▸ hlen
  | cons c cs ih =>
    intro last hlen s hs
    cases c with
    | err =>
      simp only [backtestStates, List.mem_cons] at hs
      rcases hs with h | h
      · exact h ▸ hlen
      · simp at h
    | ok b =>
      simp only [backtestStates] at hs
      rcases List.mem_cons.mp hs with h | h
      · exact h ▸ hlen
      · cases hp : bodyDecodeStrict String decodeString b with
        | none => rw [hp] at h; simp at h
        | some r =>
          rw [hp] at h
          dsimp only at h
          by_cases hst : r.status ≠ "success"
          · rw [if_pos hst] at h; simp at h
          · rw [if_neg hst] at h
            exact ih (pushLastResponse last r)
              (pushLastResponse_length last r hlen) s h

/-- C9: starting from the empty vector, the last_response vector of the
create_backtest loop holds at most one element at every loop entry, and
when the chunks are exhausted the returned value is the unique recorded
element or, when none was recorded, the synthesized failure. -/
theorem create_backtest_last_response_invariant (chunks : List (StreamItem Body)) :
    (∀ s ∈ backtestStates chunks [], s.length ≤ 1) ∧
    (∀ last : List (ApiResponse String),
      backtestLoop [] last = (.ok (last.headD noValidResponse), [])) := by
  constructor
  · exact backtestStates_bounded chunks [] (by simp)
  · intro last
    cases last with
    | nil => rfl
    | cons r t => rfl

/-- Witness for C9 on a one-chunk stream: the initial state is within the
bound and the end-of-stream return on the empty vector is the synthesized
failure. -/
theorem create_backtest_last_response_invariant_witness :
    ([] : List (ApiResponse String)).length ≤ 1 ∧
    backtestLoop [] [] = (.ok noValidResponse, []) :=
  ⟨(create_backtest_last_response_invariant [.ok successBody1]).1 [] (by decide),
   (create_backtest_last_response_invariant [.ok successBody1]).2 []⟩

/-- Helper: the get_records loop over all-successful chunks appends every
chunk to the buffer and wraps the result once the stream ends. -/
lemma getRecordsLoop_append (byteChunks : List (List Nat)) :
    ∀ data : List Nat,
      getRecordsLoop (byteChunks.map StreamItem.ok) data =
        .ok (ApiResponse.new (Option (List Nat)) "success" "" 200
          (some (data ++ byteChunks.flatten))) := by
  induction byteChunks with
  | nil => intro data; simp [getRecordsLoop, ApiResponse.new]
  | cons b t ih =>
    intro data
    simp only [List.map_cons, getRecordsLoop, ih, List.flatten_cons,
      List.append_assoc]

/-- C8: when every chunk of the stream arrives successfully, get_records
returns, only after the stream has ended, a single success envelope whose
payload is exactly the concatenation of all chunk bytes in arrival order,
with no per-chunk envelope framing. -/
theorem get_records_concat (byteChunks : List (List Nat)) :
    get_records (byteChunks.map StreamItem.ok) =
      .ok (ApiResponse.new (Option (List Nat)) "success" "" 200
        (some byteChunks.flatten)) := by
  have h := getRecordsLoop_append byteChunks []
  simpa [get_records] using h

/-- Helper: an Ok result of the get_records loop always carries a Some
payload. -/
lemma getRecordsLoop_ok_data (chunks : List (StreamItem (List Nat))) :
    ∀ (data : List Nat) (r : ApiResponse (Option (List Nat))),
      getRecordsLoop chunks data = .ok r → r.data.isSome := by
  induction chunks with
  | nil =>
    intro data r h
    simp only [getRecordsLoop] at h
    cases h
    rfl
  | cons c cs ih =>
    intro data r h
    cases c with
    | ok bytes => exact ih (data ++ bytes) r h
    | err => simp [getRecordsLoop] at h

/-- Helper: the get_records loop fails only with a request error. -/
lemma getRecordsLoop_err (chunks : List (StreamItem (List Nat))) :
    ∀ (data : List Nat) (e : Error),
      getRecordsLoop chunks data = .error e → e = .requestError := by
  induction chunks with
  | nil => intro data e h; simp [getRecordsLoop] at h
  | cons c cs ih =>
    intro data e h
    cases c with
    | ok bytes => exact ih (data ++ bytes) e h
    | err =>
      simp only [getRecordsLoop] at h
      cases h
      rfl

/-- C10: an Ok result of get_records always has a Some payload, so the
buffer-error branch of get_records_to_file is unreachable and the call
fails only through a transport error, a file-creation error, or a
file-write error. -/
theorem get_records_data_always_some (chunks : List (StreamItem (List Nat))) :
    (∀ r : ApiResponse (Option (List Nat)),
      get_records chunks = .ok r → r.data.isSome) ∧
    (∀ (createOk writeOk : Bool) (e : Error),
      get_records_to_file chunks createOk writeOk = .error e →
      e = .requestError ∨ e = .ioError .fileCreateError ∨
        e = .ioError .fileWriteError) := by
  constructor
  · intro r h
    exact getRecordsLoop_ok_data chunks [] r h
  · intro createOk writeOk e h
    unfold get_records_to_file at h
    cases hg : get_records chunks with
    | error e0 =>
      rw [hg] at h
      dsimp only at h
      injection h with he
      exact Or.inl (he ▸ getRecordsLoop_err chunks [] e0 hg)
    | ok resp =>
      rw [hg] at h
      have hdata : resp.data.isSome :=
        getRecordsLoop_ok_data chunks [] resp hg
      cases hcr : createOk with
      | false =>
        rw [hcr] at h
        simp only [if_false, Bool.false_eq_true] at h
        cases h
        exact Or.inr (Or.inl rfl)
      | true =>
        rw [hcr] at h
        simp only [if_true] at h
        cases hd : resp.data with
        | none => rw [hd] at hdata; simp at hdata
        | some buf =>
          rw [hd] at h
          cases hw : writeOk with
          | true => rw [hw] at h; simp at h
          | false =>
            rw [hw] at h
            simp only [Bool.false_eq_true, if_false] at h
            cases h
            exact Or.inr (Or.inr rfl)

/-- Witness for C10 on a one-chunk stream: the returned payload is Some,
and with file creation failing the error is the file-creation error,
which is among the allowed failures. -/
theorem get_records_data_always_some_witness :
    (ApiResponse.new (Option (List Nat)) "success" "" 200
      (some [1, 2])).data.isSome ∧
    (Error.ioError .fileCreateError = .requestError ∨
     Error.ioError .fileCreateError = .ioError .fileCreateError ∨
     Error.ioError .fileCreateError = .ioError .fileWriteError) :=
  ⟨(get_records_data_always_some [.ok [1, 2]]).1
      (ApiResponse.new (Option (List Nat)) "success" "" 200 (some [1, 2])) rfl,
   (get_records_data_always_some [.ok [1, 2]]).2 false true
      (.ioError .fileCreateError) rfl⟩
